import Mathlib

/-!
Verification of the firefly-ethconnect REST gateway.

Shallow embedding of the components the properties below refer to:
the async in-flight admission controller (`internal/rest/webhooksdirect.go`),
the synchronous responder and REST routing layer (`rest2eth`),
the remote contract registry client (`internal/contracts/remoteregistry.go`),
and the transaction sender (`internal/eth/txn.go`, reconstructed from the
specification and the package tests where noted).
-/

/- ## In-flight admission controller (webhooksdirect.go) -/

/-- Error text of `errors.WebhooksDirectTooManyInflight`, as given by the
specification's error catalog. -/
def webhooksDirectTooManyInflight : String := "Too many messages currently in flight"

/-- Error text of `errors.WebhooksDirectBadHeaders`, as given by the
specification's error catalog. -/
def webhooksDirectBadHeaders : String := "Invalid headers in message"

/-- State of a `webhooksDirect` bridge: the configured `MaxInFlight` and the
key set of the `inFlight` map (`msgID -> *msgContext`).  The map size is the
cardinality of its key set, so a `Finset String` captures it. -/
structure WebhooksDirect where
  maxInFlight : Int
  inFlight : Finset String
deriving DecidableEq

/-- `webhooksDirect.sendWebhookMsg`: under the in-flight mutex, compare the
map size with `MaxInFlight`; full map means status 429 and no change; bad
headers mean status 400 and no change; otherwise the message context is
inserted under its `msgID` and the status is 200.  Returns the new state, the
HTTP status, and the error message if any. -/
def sendWebhookMsg (w : WebhooksDirect) (msgID : String) (headersOK : Bool) :
    WebhooksDirect × Int × Option String :=
  if (w.inFlight.card : Int) ≥ w.maxInFlight then
    (w, 429, some webhooksDirectTooManyInflight)
  else if headersOK = false then
    (w, 400, some webhooksDirectBadHeaders)
  else
    ({ w with inFlight := insert msgID w.inFlight }, 200, none)

/-- `msgContext.Reply`: under the same in-flight mutex, the entry for the
original message ID is deleted from the map. -/
def msgContextReply (w : WebhooksDirect) (msgID : String) : WebhooksDirect :=
  { w with inFlight := w.inFlight.erase msgID }

/-- `validateWebhooksDirectConf`: `MaxInFlight <= 0` is normalized to 10. -/
def validateMaxInFlight (m : Int) : Int :=
  if m ≤ 0 then 10 else m

/-- One observable event on the in-flight map: a dispatch attempt or a reply. -/
inductive WebhookEvent
  | dispatch (msgID : String) (headersOK : Bool)
  | reply (msgID : String)

/-- State transition of the bridge for one event. -/
def webhookStep (w : WebhooksDirect) : WebhookEvent → WebhooksDirect
  | WebhookEvent.dispatch msgID headersOK => (sendWebhookMsg w msgID headersOK).1
  | WebhookEvent.reply msgID => msgContextReply w msgID

/-- Run from a freshly constructed bridge (empty map, validated config)
through a sequence of dispatches and replies. -/
def webhookRun (m : Int) (events : List WebhookEvent) : WebhooksDirect :=
  events.foldl webhookStep { maxInFlight := validateMaxInFlight m, inFlight := ∅ }

lemma webhookStep_maxInFlight (w : WebhooksDirect) (e : WebhookEvent) :
    (webhookStep w e).maxInFlight = w.maxInFlight := by
  cases e with
  | dispatch msgID headersOK =>
    simp only [webhookStep, sendWebhookMsg]
    split
    · rfl
    · split <;> rfl
  | reply msgID => rfl

lemma webhookStep_card_le (w : WebhooksDirect) (e : WebhookEvent)
    (h : (w.inFlight.card : Int) ≤ w.maxInFlight) :
    ((webhookStep w e).inFlight.card : Int) ≤ (webhookStep w e).maxInFlight := by
  rw [webhookStep_maxInFlight]
  cases e with
  | dispatch msgID headersOK =>
    simp only [webhookStep, sendWebhookMsg]
    split
    · exact h
    · rename_i hlt
      push_neg at hlt
      split
      · exact h
      · simp only []
        have hcard := Finset.card_insert_le msgID w.inFlight
        have : ((insert msgID w.inFlight).card : Int) ≤ (w.inFlight.card : Int) + 1 := by
          exact_mod_cast hcard
        omega
  | reply msgID =>
    simp only [webhookStep, msgContextReply]
    have hcard := Finset.card_erase_le (a := msgID) (s := w.inFlight)
    have : ((w.inFlight.erase msgID).card : Int) ≤ (w.inFlight.card : Int) := by
      exact_mod_cast hcard
    omega

lemma webhookRun_inv (m : Int) (events : List WebhookEvent) :
    ((webhookRun m events).inFlight.card : Int) ≤ (webhookRun m events).maxInFlight := by
  have hgen : ∀ (es : List WebhookEvent) (w : WebhooksDirect),
      ((w.inFlight.card : Int) ≤ w.maxInFlight) →
      ((es.foldl webhookStep w).inFlight.card : Int) ≤ (es.foldl webhookStep w).maxInFlight := by
    intro es
    induction es with
    | nil => intro w h; exact h
    | cons e es ih =>
      intro w h
      exact ih (webhookStep w e) (webhookStep_card_le w e h)
  apply hgen
  simp only [Finset.card_empty, Int.ofNat_zero, validateMaxInFlight]
  split <;> omega

/-- `C1`: over every sequence of dispatches and replies from a validated
configuration, the in-flight map stays bounded by `MaxInFlight`; a dispatch
against a reachable state returns 429 exactly when the observed size is
already at least `MaxInFlight`, in which case it reports "Too many messages
currently in flight" and leaves the state unchanged; an entry is inserted
only on acceptance (status 200); and `Reply` deletes the entry for the
message ID. -/
theorem c1_inflight_bounded (m : Int) (events : List WebhookEvent)
    (msgID : String) (headersOK : Bool) :
    (((webhookRun m events).inFlight.card : Int) ≤ (webhookRun m events).maxInFlight) ∧
    ((sendWebhookMsg (webhookRun m events) msgID headersOK).2.1 = 429 ↔
      ((webhookRun m events).inFlight.card : Int) ≥ (webhookRun m events).maxInFlight) ∧
    ((sendWebhookMsg (webhookRun m events) msgID headersOK).2.1 = 429 →
      (sendWebhookMsg (webhookRun m events) msgID headersOK).1 = webhookRun m events ∧
      (sendWebhookMsg (webhookRun m events) msgID headersOK).2.2 =
        some webhooksDirectTooManyInflight) ∧
    ((sendWebhookMsg (webhookRun m events) msgID headersOK).1.inFlight =
        (webhookRun m events).inFlight ∨
      ((sendWebhookMsg (webhookRun m events) msgID headersOK).2.1 = 200 ∧
        (sendWebhookMsg (webhookRun m events) msgID headersOK).1.inFlight =
          insert msgID (webhookRun m events).inFlight)) ∧
    (msgContextReply (webhookRun m events) msgID).inFlight =
      (webhookRun m events).inFlight.erase msgID := by
  have hinv := webhookRun_inv m events
  by_cases hfull : ((webhookRun m events).inFlight.card : Int) ≥ (webhookRun m events).maxInFlight
  · have hres : sendWebhookMsg (webhookRun m events) msgID headersOK =
        (webhookRun m events, 429, some webhooksDirectTooManyInflight) := by
      simp only [sendWebhookMsg]
      rw [if_pos hfull]
    rw [hres]
    exact ⟨hinv, ⟨fun _ => hfull, fun _ => rfl⟩, fun _ => ⟨rfl, rfl⟩, Or.inl rfl, rfl⟩
  · cases headersOK with
    | false =>
      have hres : sendWebhookMsg (webhookRun m events) msgID false =
          (webhookRun m events, 400, some webhooksDirectBadHeaders) := by
        simp only [sendWebhookMsg]
        rw [if_neg hfull]
        simp
      rw [hres]
      refine ⟨hinv, ⟨?_, ?_⟩, ?_, Or.inl rfl, rfl⟩
      · intro h
        exact absurd (show (400 : Int) = 429 from h) (by decide)
      · intro h
        exact absurd h hfull
      · intro h
        exact absurd (show (400 : Int) = 429 from h) (by decide)
    | true =>
      have hres : sendWebhookMsg (webhookRun m events) msgID true =
          ({ webhookRun m events with
              inFlight := insert msgID (webhookRun m events).inFlight }, 200, none) := by
        simp only [sendWebhookMsg]
        rw [if_neg hfull]
        simp
      rw [hres]
      refine ⟨hinv, ⟨?_, ?_⟩, ?_, Or.inr ⟨rfl, rfl⟩, rfl⟩
      · intro h
        exact absurd (show (200 : Int) = 429 from h) (by decide)
      · intro h
        exact absurd h hfull
      · intro h
        exact absurd (show (200 : Int) = 429 from h) (by decide)

/- ## Synchronous responder (rest2eth, `rest2EthSyncResponder`) -/

/-- Value of `messages.MsgTypeTransactionSuccess`, the reply header type of a
successful transaction receipt. -/
def msgTypeTransactionSuccess : String := "TransactionSuccess"

/-- The part of a `messages.TransactionReceipt` the responder inspects:
`ContractAddress` (nil unless the receipt is for a contract deployment). -/
structure TxReceiptMsg where
  contractAddress : Option String
deriving DecidableEq

/-- The part of a `messages.ReplyWithHeaders` the responder inspects:
`ReplyHeaders().MsgType`, and `IsReceipt()` (non-nil exactly when the reply
is a transaction receipt). -/
structure ReplyMsg where
  msgType : String
  isReceipt : Option TxReceiptMsg
deriving DecidableEq

/-- Observable state of a `rest2EthSyncResponder`: whether `done` was set,
how many times the condition variable was broadcast, the HTTP status written
(if any), whether the JSON body carries an `error` field, and how many times
the post-deploy hook (`gw.PostDeploy`) was invoked. -/
structure SyncResponder where
  done : Bool
  broadcasts : Nat
  status : Option Int
  errorInBody : Bool
  hookCalls : Nat
deriving DecidableEq

/-- A freshly constructed responder (`done: false`, nothing written). -/
def newSyncResponder : SyncResponder :=
  { done := false, broadcasts := 0, status := none, errorInBody := false, hookCalls := 0 }

/-- `rest2EthSyncResponder.ReplyWithError`: write a 500 error response, set
`done`, broadcast. -/
def replyWithError (r : SyncResponder) : SyncResponder :=
  { r with status := some 500, errorInBody := true, done := true,
           broadcasts := r.broadcasts + 1 }

/-- `rest2EthSyncResponder.ReplyWithReceiptAndError`: write the receipt plus
the error with status 500, set `done`, broadcast. -/
def replyWithReceiptAndError (r : SyncResponder) : SyncResponder :=
  { r with status := some 500, errorInBody := true, done := true,
           broadcasts := r.broadcasts + 1 }

/-- The tail of `ReplyWithReceipt` past the post-deploy hook: status 200 for
`MsgTypeTransactionSuccess`, 500 otherwise; write, set `done`, broadcast. -/
def writeReceiptReply (r : SyncResponder) (receipt : ReplyMsg) : SyncResponder :=
  { r with
    status := some (if receipt.msgType = msgTypeTransactionSuccess then 200 else 500),
    done := true, broadcasts := r.broadcasts + 1 }

/-- `rest2EthSyncResponder.ReplyWithReceipt`: when `IsReceipt()` is non-nil
and its `ContractAddress` is non-nil, invoke `gw.PostDeploy`; on hook failure
delegate to `ReplyWithReceiptAndError` and return; otherwise write the
receipt with the status chosen from the reply `MsgType`.  `postDeploy` maps
the receipt to `some err` on failure, `none` on success. -/
def replyWithReceipt (r : SyncResponder) (receipt : ReplyMsg)
    (postDeploy : TxReceiptMsg → Option String) : SyncResponder :=
  match receipt.isReceipt with
  | some rcpt =>
    if rcpt.contractAddress.isSome then
      match postDeploy rcpt with
      | some _ => replyWithReceiptAndError { r with hookCalls := r.hookCalls + 1 }
      | none => writeReceiptReply { r with hookCalls := r.hookCalls + 1 } receipt
    else writeReceiptReply r receipt
  | none => writeReceiptReply r receipt

/-- The hook is invoked on `receipt` exactly when the reply is a receipt
carrying a non-nil `ContractAddress`. -/
def deployHookDue (receipt : ReplyMsg) : Bool :=
  match receipt.isReceipt with
  | some rcpt => rcpt.contractAddress.isSome
  | none => false

/-- The hook is due and fails. -/
def deployHookFails (receipt : ReplyMsg) (postDeploy : TxReceiptMsg → Option String) : Bool :=
  match receipt.isReceipt with
  | some rcpt => rcpt.contractAddress.isSome && (postDeploy rcpt).isSome
  | none => false

/-- `C5`: each of the three reply entry points, applied to a fresh responder,
sets `done` and broadcasts exactly once; `ReplyWithError` and
`ReplyWithReceiptAndError` always answer 500 with the error in the body;
`ReplyWithReceipt` invokes the post-deploy hook exactly when the receipt
carries a non-nil `ContractAddress`, answers 200 exactly when the reply
header `MsgType` is `MsgTypeTransactionSuccess` and no due hook failed
(folding a hook failure into `ReplyWithReceiptAndError`, status 500 with the
error in the body), and answers 500 in every other case. -/
theorem c5_sync_responder (receipt : ReplyMsg) (postDeploy : TxReceiptMsg → Option String) :
    ((replyWithError newSyncResponder).done = true ∧
      (replyWithError newSyncResponder).broadcasts = 1 ∧
      (replyWithError newSyncResponder).status = some 500 ∧
      (replyWithError newSyncResponder).errorInBody = true) ∧
    ((replyWithReceiptAndError newSyncResponder).done = true ∧
      (replyWithReceiptAndError newSyncResponder).broadcasts = 1 ∧
      (replyWithReceiptAndError newSyncResponder).status = some 500 ∧
      (replyWithReceiptAndError newSyncResponder).errorInBody = true) ∧
    ((replyWithReceipt newSyncResponder receipt postDeploy).done = true ∧
      (replyWithReceipt newSyncResponder receipt postDeploy).broadcasts = 1) ∧
    ((replyWithReceipt newSyncResponder receipt postDeploy).hookCalls =
      if deployHookDue receipt then 1 else 0) ∧
    ((replyWithReceipt newSyncResponder receipt postDeploy).status = some 200 ↔
      (receipt.msgType = msgTypeTransactionSuccess ∧
        deployHookFails receipt postDeploy = false)) ∧
    (deployHookFails receipt postDeploy = true →
      (replyWithReceipt newSyncResponder receipt postDeploy).status = some 500 ∧
      (replyWithReceipt newSyncResponder receipt postDeploy).errorInBody = true) ∧
    ((replyWithReceipt newSyncResponder receipt postDeploy).status = some 200 ∨
      (replyWithReceipt newSyncResponder receipt postDeploy).status = some 500) := by
  obtain ⟨mt, irc⟩ := receipt
  rcases irc with _ | rcpt
  · refine ⟨⟨rfl, rfl, rfl, rfl⟩, ⟨rfl, rfl, rfl, rfl⟩, ?_, ?_, ?_, ?_, ?_⟩ <;>
      by_cases hmt : mt = msgTypeTransactionSuccess <;>
      simp [replyWithReceipt, writeReceiptReply, replyWithReceiptAndError,
        newSyncResponder, deployHookDue, deployHookFails, hmt]
  · refine ⟨⟨rfl, rfl, rfl, rfl⟩, ⟨rfl, rfl, rfl, rfl⟩, ?_, ?_, ?_, ?_, ?_⟩ <;>
      rcases hca : rcpt.contractAddress with _ | a <;>
      rcases hpd : postDeploy rcpt with _ | e <;>
      by_cases hmt : mt = msgTypeTransactionSuccess <;>
      simp [replyWithReceipt, writeReceiptReply, replyWithReceiptAndError,
        newSyncResponder, deployHookDue, deployHookFails, hca, hpd, hmt]

/- ## Transaction sender (internal/eth/txn.go — reconstructed) -/

/-- JSON-RPC calls the transaction sender can issue. -/
inductive RpcCall
  | estimateGas
  | ethCall
  | ethSendTransaction (withPrivateFor : Bool)
  | eeaSendTransaction
  | ethSendRawTransaction
deriving DecidableEq

/-- Modelled from the spec: the `Txn` fields `Send` branches on — the gas
limit (0 meaning gas was not supplied in the message), and the privacy
fields `PrivateFrom`, `PrivateFor`, `PrivacyGroupID` (§4.3, §3 `Txn`).
`internal/eth/txn.go` is absent from the tree; only its tests are present. -/
structure Txn where
  gas : Nat
  privateFrom : String
  privateFor : List String
  privacyGroupID : String
deriving DecidableEq

/-- Modelled from the spec: an offline signer (§4.3 step 2, §4.9) — its
display name, whether it supports private transactions, and the outcome of
its `Sign` call (`some err` = signing fails). -/
structure TXSigner where
  typeName : String
  supportsPrivate : Bool
  signErr : Option String
deriving DecidableEq

/-- Modelled from the spec: the node's answers to `eth_estimateGas` and to
the fallback `eth_call` (`some err` = the RPC fails), standing for the
`RPCClient` collaborator. -/
structure RpcNode where
  estimateGasErr : Option String
  callErr : Option String
deriving DecidableEq

/-- Error text for a missing private-from on an Orion private transaction. -/
def errPrivateFromMissingOrion : String :=
  "private-from is required when submitting private transactions via Orion"

/-- Error text when gas estimation and the fallback call both fail. -/
def errCallFailed (reason : String) : String := "Call failed: " ++ reason

/-- Error text when gas estimation fails but the fallback call succeeds. -/
def errCalcGasFailed (estErr : String) : String :=
  "Failed to calculate gas for transaction: " ++ estErr

/-- Error text when a signer that does not support private transactions is
asked to sign one. -/
def errSignerPrivateUnsupported (typeName : String) : String :=
  "Signing with " ++ typeName ++ " is not currently supported with private transactions"

/-- Modelled from the spec: §4.3 step 1 — when gas was not supplied, call
`eth_estimateGas`; if that fails, re-issue the transaction as an `eth_call`
to obtain a revert reason: if the call also fails surface
"Call failed: [reason]", and if the call succeeds surface
"Failed to calculate gas for transaction: [estimate-error]".  Returns the
RPC calls issued and the error, if any. -/
def calculateGas (node : RpcNode) : List RpcCall × Option String :=
  match node.estimateGasErr with
  | none => ([RpcCall.estimateGas], none)
  | some estErr =>
    match node.callErr with
    | some callErr =>
      ([RpcCall.estimateGas, RpcCall.ethCall], some (errCallFailed callErr))
    | none =>
      ([RpcCall.estimateGas, RpcCall.ethCall], some (errCalcGasFailed estErr))

/-- Modelled from the spec: the gas phase of `Send` — estimation runs
exactly when no gas was supplied.  The repository's own tests
(`TestSendWithTXSignerOK`, `TestSendWithTXSignerContractOK`) pin that the
presence of an offline signer does not suppress estimation. -/
def txnGasPhase (tx : Txn) (node : RpcNode) : List RpcCall × Option String :=
  if tx.gas = 0 then calculateGas node else ([], none)

/-- A transaction is private when any privacy field is populated. -/
def txnIsPrivate (tx : Txn) : Bool :=
  if tx.privateFrom = "" ∧ tx.privateFor = [] ∧ tx.privacyGroupID = "" then false else true

/-- Modelled from the spec: §4.3 step 3 — without a signer the send RPC is
chosen by the privacy fields: non-empty `PrivacyGroupID` with non-empty
`PrivateFrom` gives `eea_sendTransaction`; non-empty `PrivacyGroupID`
without `PrivateFrom` is an error; non-empty `PrivateFor` gives
`eth_sendTransaction` with a `privateFor` field; otherwise plain
`eth_sendTransaction`. -/
def submitTXtoNode (tx : Txn) : Except String RpcCall :=
  if tx.privacyGroupID = "" then
    (if tx.privateFor = [] then Except.ok (RpcCall.ethSendTransaction false)
     else Except.ok (RpcCall.ethSendTransaction true))
  else
    (if tx.privateFrom = "" then Except.error errPrivateFromMissingOrion
     else Except.ok RpcCall.eeaSendTransaction)

/-- Modelled from the spec: `Txn.Send` (§4.3) — run the gas phase; on
success, either hand the transaction to the configured signer and submit the
signed bytes via `eth_sendRawTransaction` (rejecting private transactions
the signer does not support, propagating signer errors), or choose the node
send RPC by the privacy fields.  Returns the RPC calls issued in order and
the error, if any. -/
def txnSend (tx : Txn) (signer : Option TXSigner) (node : RpcNode) :
    List RpcCall × Option String :=
  match txnGasPhase tx node with
  | (calls, some e) => (calls, some e)
  | (calls, none) =>
    match signer with
    | some s =>
      if txnIsPrivate tx && !s.supportsPrivate then
        (calls, some (errSignerPrivateUnsupported s.typeName))
      else
        match s.signErr with
        | some e => (calls, some e)
        | none => (calls ++ [RpcCall.ethSendRawTransaction], none)
    | none =>
      match submitTXtoNode tx with
      | Except.error e => (calls, some e)
      | Except.ok c => (calls ++ [c], none)

/-- Whether an RPC call submits a transaction (as opposed to the read-only
`eth_estimateGas` / `eth_call`). -/
def isSendRpc : RpcCall → Bool
  | RpcCall.estimateGas => false
  | RpcCall.ethCall => false
  | RpcCall.ethSendTransaction _ => true
  | RpcCall.eeaSendTransaction => true
  | RpcCall.ethSendRawTransaction => true

lemma calculateGas_mem (node : RpcNode) :
    RpcCall.estimateGas ∈ (calculateGas node).1 := by
  rcases hest : node.estimateGasErr with _ | e <;>
    rcases hcall : node.callErr with _ | c <;>
    simp [calculateGas, hest, hcall]

lemma txnGasPhase_ok (tx : Txn) (node : RpcNode)
    (hgas : tx.gas ≠ 0 ∨ node.estimateGasErr = none) :
    ∃ gcalls, txnGasPhase tx node = (gcalls, none) ∧
      gcalls.filter isSendRpc = [] ∧
      (RpcCall.estimateGas ∈ gcalls ↔ tx.gas = 0) := by
  by_cases h0 : tx.gas = 0
  · have hest : node.estimateGasErr = none := by
      rcases hgas with h | h
      · exact absurd h0 h
      · exact h
    refine ⟨[RpcCall.estimateGas], ?_, rfl, ?_⟩
    · simp [txnGasPhase, h0, calculateGas, hest]
    · simp [h0]
  · exact ⟨[], by simp [txnGasPhase, h0], rfl, by simp [h0]⟩

/-- `C3`: without an offline signer (and with the gas phase able to
complete), the send RPC is chosen by the privacy fields — `PrivacyGroupID`
and `PrivateFrom` both non-empty gives `eea_sendTransaction`;
`PrivacyGroupID` without `PrivateFrom` fails with the Orion private-from
error and issues no send RPC; `PrivateFor` non-empty gives
`eth_sendTransaction` with a `privateFor` field; otherwise plain
`eth_sendTransaction`. -/
theorem c3_privacy_routing (tx : Txn) (node : RpcNode)
    (hgas : tx.gas ≠ 0 ∨ node.estimateGasErr = none) :
    (tx.privacyGroupID ≠ "" → tx.privateFrom ≠ "" →
      (txnSend tx none node).1.filter isSendRpc = [RpcCall.eeaSendTransaction] ∧
      (txnSend tx none node).2 = none) ∧
    (tx.privacyGroupID ≠ "" → tx.privateFrom = "" →
      (txnSend tx none node).2 = some errPrivateFromMissingOrion ∧
      (txnSend tx none node).1.filter isSendRpc = []) ∧
    (tx.privacyGroupID = "" → tx.privateFor ≠ [] →
      (txnSend tx none node).1.filter isSendRpc = [RpcCall.ethSendTransaction true] ∧
      (txnSend tx none node).2 = none) ∧
    (tx.privacyGroupID = "" → tx.privateFor = [] →
      (txnSend tx none node).1.filter isSendRpc = [RpcCall.ethSendTransaction false] ∧
      (txnSend tx none node).2 = none) := by
  obtain ⟨gcalls, hgp, hgfil, _⟩ := txnGasPhase_ok tx node hgas
  refine ⟨?_, ?_, ?_, ?_⟩
  · intro hpg hpf
    have hsub : submitTXtoNode tx = Except.ok RpcCall.eeaSendTransaction := by
      simp [submitTXtoNode, hpg, hpf]
    simp [txnSend, hgp, hsub, List.filter_append, hgfil, isSendRpc]
  · intro hpg hpf
    have hsub : submitTXtoNode tx = Except.error errPrivateFromMissingOrion := by
      simp [submitTXtoNode, hpg, hpf]
    simp [txnSend, hgp, hsub, hgfil]
  · intro hpg hpf
    have hsub : submitTXtoNode tx = Except.ok (RpcCall.ethSendTransaction true) := by
      simp [submitTXtoNode, hpg, hpf]
    simp [txnSend, hgp, hsub, List.filter_append, hgfil, isSendRpc]
  · intro hpg hpf
    have hsub : submitTXtoNode tx = Except.ok (RpcCall.ethSendTransaction false) := by
      simp [submitTXtoNode, hpg, hpf]
    simp [txnSend, hgp, hsub, List.filter_append, hgfil, isSendRpc]

/-- Witness for `c3_privacy_routing` at a concrete Orion private
transaction with gas supplied. -/
theorem c3_privacy_routing_witness :
    ((3 : Nat) ≠ 0 ∨ (RpcNode.mk none none).estimateGasErr = none) ∧
    ((Txn.mk 3 "pfrom" [] "pgroup").privacyGroupID ≠ "" →
      (Txn.mk 3 "pfrom" [] "pgroup").privateFrom ≠ "" →
      (txnSend (Txn.mk 3 "pfrom" [] "pgroup") none (RpcNode.mk none none)).1.filter isSendRpc =
        [RpcCall.eeaSendTransaction] ∧
      (txnSend (Txn.mk 3 "pfrom" [] "pgroup") none (RpcNode.mk none none)).2 = none) :=
  ⟨Or.inl (by decide),
    (c3_privacy_routing (Txn.mk 3 "pfrom" [] "pgroup") (RpcNode.mk none none)
      (Or.inl (by decide))).1⟩

/-- `C7`: when gas estimation is attempted and fails, the transaction is
re-issued as an `eth_call`; if the call also fails `Send` returns
"Call failed: [reason]"; if the call succeeds `Send` returns
"Failed to calculate gas for transaction: [estimate-error]"; in both cases
no send RPC is issued. -/
theorem c7_gas_fallback (tx : Txn) (signer : Option TXSigner) (node : RpcNode)
    (estErr : String) (hgas : tx.gas = 0) (hest : node.estimateGasErr = some estErr) :
    (txnSend tx signer node).1 = [RpcCall.estimateGas, RpcCall.ethCall] ∧
    (∀ callErr, node.callErr = some callErr →
      (txnSend tx signer node).2 = some (errCallFailed callErr)) ∧
    (node.callErr = none →
      (txnSend tx signer node).2 = some (errCalcGasFailed estErr)) ∧
    (txnSend tx signer node).1.filter isSendRpc = [] := by
  rcases hcall : node.callErr with _ | callErr
  · have hgp : txnGasPhase tx node =
        ([RpcCall.estimateGas, RpcCall.ethCall], some (errCalcGasFailed estErr)) := by
      simp [txnGasPhase, hgas, calculateGas, hest, hcall]
    refine ⟨?_, ?_, ?_, ?_⟩ <;> simp [txnSend, hgp, isSendRpc]
  · have hgp : txnGasPhase tx node =
        ([RpcCall.estimateGas, RpcCall.ethCall], some (errCallFailed callErr)) := by
      simp [txnGasPhase, hgas, calculateGas, hest, hcall]
    refine ⟨?_, ?_, ?_, ?_⟩
    · simp [txnSend, hgp]
    · intro c hc
      cases hc
      simp [txnSend, hgp]
    · intro hc
      exact Option.noConfusion hc
    · simp [txnSend, hgp, isSendRpc]

/-- Witness for `c7_gas_fallback`: both estimation and the fallback call
fail on a concrete transaction. -/
theorem c7_gas_fallback_witness :
    (Txn.mk 0 "" [] "").gas = 0 ∧
    (RpcNode.mk (some "pop") (some "call fails")).estimateGasErr = some "pop" ∧
    (txnSend (Txn.mk 0 "" [] "") none (RpcNode.mk (some "pop") (some "call fails"))).1 =
      [RpcCall.estimateGas, RpcCall.ethCall] ∧
    (txnSend (Txn.mk 0 "" [] "") none (RpcNode.mk (some "pop") (some "call fails"))).2 =
      some (errCallFailed "call fails") :=
  ⟨rfl, rfl,
    (c7_gas_fallback (Txn.mk 0 "" [] "") none (RpcNode.mk (some "pop") (some "call fails"))
      "pop" rfl rfl).1,
    (c7_gas_fallback (Txn.mk 0 "" [] "") none (RpcNode.mk (some "pop") (some "call fails"))
      "pop" rfl rfl).2.1 "call fails" rfl⟩

lemma submitTXtoNode_ok_sendRpc (tx : Txn) (c : RpcCall)
    (h : submitTXtoNode tx = Except.ok c) : isSendRpc c = true := by
  unfold submitTXtoNode at h
  split at h
  · split at h <;> (cases h; rfl)
  · split at h
    · exact Except.noConfusion h
    · cases h; rfl

lemma estimateGas_mem_txnSend (tx : Txn) (signer : Option TXSigner) (node : RpcNode) :
    RpcCall.estimateGas ∈ (txnSend tx signer node).1 ↔ tx.gas = 0 := by
  by_cases h0 : tx.gas = 0
  · simp only [h0, iff_true]
    rcases hcg : calculateGas node with ⟨calls, err⟩
    have hmem : RpcCall.estimateGas ∈ calls := by
      have hm := calculateGas_mem node
      rw [hcg] at hm
      exact hm
    have hgp : txnGasPhase tx node = (calls, err) := by
      simp [txnGasPhase, h0, hcg]
    rcases err with _ | e
    · rcases signer with _ | s
      · rcases hsub : submitTXtoNode tx with e | c <;>
          simp [txnSend, hgp, hsub, List.mem_append, hmem]
      · by_cases hps : (txnIsPrivate tx && !s.supportsPrivate) = true
        · simp [txnSend, hgp, hps, hmem]
        · rcases hse : s.signErr with _ | e <;>
            simp [txnSend, hgp, hps, hse, List.mem_append, hmem]
    · simp [txnSend, hgp, hmem]
  · simp only [h0, iff_false]
    have hgp : txnGasPhase tx node = ([], none) := by
      simp [txnGasPhase, h0]
    rcases signer with _ | s
    · rcases hsub : submitTXtoNode tx with e | c
      · simp [txnSend, hgp, hsub]
      · have hc := submitTXtoNode_ok_sendRpc tx c hsub
        simp only [txnSend, hgp, hsub, List.nil_append, List.mem_singleton]
        intro heq
        rw [← heq] at hc
        exact absurd hc (by decide)
    · by_cases hps : (txnIsPrivate tx && !s.supportsPrivate) = true
      · simp [txnSend, hgp, hps]
      · rcases hse : s.signErr with _ | e <;>
          simp [txnSend, hgp, hps, hse]

/-- `C2` (amended): `eth_estimateGas` is issued if and only if no gas value
was supplied in the message, irrespective of whether an offline signer is
configured; with a healthy signer configured the transaction is then signed
and submitted via `eth_sendRawTransaction` as the only send RPC. -/
theorem c2_estimate_iff_no_gas (tx : Txn) (s : TXSigner) (node : RpcNode)
    (hsign : s.signErr = none)
    (hpriv : txnIsPrivate tx = false ∨ s.supportsPrivate = true)
    (hgas : tx.gas ≠ 0 ∨ node.estimateGasErr = none) :
    (∀ sg : Option TXSigner, (RpcCall.estimateGas ∈ (txnSend tx sg node).1 ↔ tx.gas = 0)) ∧
    (txnSend tx (some s) node).1.filter isSendRpc = [RpcCall.ethSendRawTransaction] ∧
    (txnSend tx (some s) node).2 = none := by
  obtain ⟨gcalls, hgp, hgfil, _⟩ := txnGasPhase_ok tx node hgas
  have hps : (txnIsPrivate tx && !s.supportsPrivate) = false := by
    rcases hpriv with h | h <;> simp [h]
  refine ⟨fun sg => estimateGas_mem_txnSend tx sg node, ?_, ?_⟩
  · simp [txnSend, hgp, hps, hsign, List.filter_append, hgfil, isSendRpc]
  · simp [txnSend, hgp, hps, hsign]

/-- Witness for `c2_estimate_iff_no_gas` at the configuration of
`TestSendWithTXSignerOK`: signer configured, no gas supplied. -/
theorem c2_estimate_iff_no_gas_witness :
    (TXSigner.mk "mock signer" false none).signErr = none ∧
    (txnSend (Txn.mk 0 "" [] "") (some (TXSigner.mk "mock signer" false none))
        (RpcNode.mk none none)).1.filter isSendRpc = [RpcCall.ethSendRawTransaction] ∧
    (txnSend (Txn.mk 0 "" [] "") (some (TXSigner.mk "mock signer" false none))
        (RpcNode.mk none none)).2 = none :=
  ⟨rfl,
    (c2_estimate_iff_no_gas (Txn.mk 0 "" [] "") (TXSigner.mk "mock signer" false none)
      (RpcNode.mk none none) rfl (Or.inl (by decide)) (Or.inr rfl)).2.1,
    (c2_estimate_iff_no_gas (Txn.mk 0 "" [] "") (TXSigner.mk "mock signer" false none)
      (RpcNode.mk none none) rfl (Or.inl (by decide)) (Or.inr rfl)).2.2⟩

/-- `C2` counterexample: with an offline signer configured and no gas
supplied, `Send` issues `eth_estimateGas` *before* `eth_sendRawTransaction`
(the scenario of `TestSendWithTXSignerOK`), contradicting the claim that a
configured signer suppresses the `eth_estimateGas` call. -/
theorem c2_counterexample :
    (txnSend (Txn.mk 0 "" [] "") (some (TXSigner.mk "mock signer" false none))
        (RpcNode.mk none none)).1 =
      [RpcCall.estimateGas, RpcCall.ethSendRawTransaction] ∧
    RpcCall.estimateGas ∈
      (txnSend (Txn.mk 0 "" [] "") (some (TXSigner.mk "mock signer" false none))
        (RpcNode.mk none none)).1 := by
  constructor
  · rfl
  · decide

/- ## CallMethod: block tag normalization and revert decoding -/

/-- Hex digit value of a character, if it is one. -/
def hexDigitVal? (c : Char) : Option Nat :=
  if '0' ≤ c ∧ c ≤ '9' then some (c.toNat - '0'.toNat)
  else if 'a' ≤ c ∧ c ≤ 'f' then some (c.toNat - 'a'.toNat + 10)
  else if 'A' ≤ c ∧ c ≤ 'F' then some (c.toNat - 'A'.toNat + 10)
  else none

/-- Parse a run of hex digits into a number; any non-hex character fails
(the length-field parse of the revert payload). -/
def hexCharsToNat? (cs : List Char) : Option Nat :=
  cs.foldl (fun acc c => acc.bind (fun n => (hexDigitVal? c).map (fun d => 16 * n + d)))
    (some 0)

/-- Decode pairs of hex characters into byte values (Go `hex.DecodeString`):
fails on a bad digit or an odd count. -/
def hexPairsToBytes? : List Char → Option (List Nat)
  | [] => some []
  | c1 :: c2 :: rest =>
    match hexDigitVal? c1, hexDigitVal? c2, hexPairsToBytes? rest with
    | some h, some l, some bs => some ((16 * h + l) :: bs)
    | _, _, _ => none
  | [_] => none

/-- Bytes to the string they spell (Go `string(bytes)`). -/
def bytesToString (bs : List Nat) : String :=
  String.mk (bs.map Char.ofNat)

/-- The EVM revert selector `0x08c379a0` as the leading characters of an
`eth_call` return payload. -/
def revertSelector : List Char := "0x08c379a0".data

/-- Whether `lead` is the leading run of the second list. -/
def charsLeadWith : List Char → List Char → Bool
  | [], _ => true
  | _ :: _, [] => false
  | a :: rest, b :: bs => a = b && charsLeadWith rest bs

/-- Outcome of decoding an `eth_call` return payload. -/
inductive CallOutcome
  | reverted (reason : String)
  | revertedNoMessage
  | decoded
deriving DecidableEq

/-- Error text when a revert payload cannot be decoded. -/
def errRevertNoMessage : String := "EVM reverted. Failed to decode error message"

/-- Modelled from the spec: revert decoding in `CallMethod`
(`internal/eth/txn.go` is absent from the tree; behavior pinned by
`TestCallMethodRevert`, `TestCallMethodRevertBadStrLen`,
`TestCallMethodRevertBadBytes`).  A payload beginning with the selector
`0x08c379a0` carries an ABI-encoded string: a 32-byte offset word (hex
characters 10..74), a 32-byte length word (74..138) and the string bytes
from 138 on.  The length word is parsed as hex; the string slice is clamped
to the characters actually present; the bytes are hex-decoded and surfaced
verbatim.  Any malformed payload (too short, bad length field, bad string
bytes) yields the fixed decode-failure message.  Payloads without the
selector decode normally. -/
def processCallReturn (retValue : String) : CallOutcome :=
  if charsLeadWith revertSelector retValue.data then
    if 138 < retValue.data.length then
      match hexCharsToNat? ((retValue.data.drop 74).take 64) with
      | none => CallOutcome.revertedNoMessage
      | some strLen =>
        match hexPairsToBytes? ((retValue.data.drop 138).take
            (min (138 + 2 * strLen) retValue.data.length - 138)) with
        | none => CallOutcome.revertedNoMessage
        | some bytes => CallOutcome.reverted (bytesToString bytes)
    else CallOutcome.revertedNoMessage
  else CallOutcome.decoded

/-- Whether a tag is a `0x`-prefixed hex number. -/
def isHexBlockTag (s : String) : Bool :=
  charsLeadWith "0x".data s.data && decide (s.data.drop 2 ≠ []) &&
    (s.data.drop 2).all (fun c => (hexDigitVal? c).isSome)

/-- Parse a non-empty all-digit string as a decimal number. -/
def decimalToNat? (s : String) : Option Nat :=
  if s.data = [] then none
  else if s.data.all Char.isDigit then
    some (s.data.foldl (fun n c => 10 * n + (c.toNat - '0'.toNat)) 0)
  else none

/-- A number as a lowercase `0x`-prefixed hex string. -/
def natToHexString (n : Nat) : String :=
  "0x" ++ String.mk (Nat.toDigits 16 n)

/-- Error text for an unparseable block number tag. -/
def errInvalidBlockNumber : String := "Invalid blocknumber. Failed to parse into big integer"

/-- Modelled from the spec: `blockTag` normalization in `CallMethod` (§4.3)
— "" defaults to "latest"; "latest", "earliest", "pending" and `0x`-hex
numbers pass through; a decimal number is re-encoded as lowercase `0x`-hex;
anything else is the invalid-blocknumber error.  Behavior pinned by
`TestCallMethod` / `TestCallMethodFail`. -/
def normalizeBlockTag (blocknumber : String) : Except String String :=
  if blocknumber = "" ∨ blocknumber = "latest" then Except.ok "latest"
  else if isHexBlockTag blocknumber ∨ blocknumber = "earliest" ∨ blocknumber = "pending" then
    Except.ok blocknumber
  else
    match decimalToNat? blocknumber with
    | some n => Except.ok (natToHexString n)
    | none => Except.error errInvalidBlockNumber

/-- Modelled from the spec: `CallMethod` — normalize the block tag, issuing
no `eth_call` when it is invalid; otherwise perform `eth_call` with the
normalized tag against the node (whose return payload is `retValue`) and
decode, surfacing a revert reason verbatim as the error.  Returns the list
of block tags passed to `eth_call` and the error, if any. -/
def callMethod (blocknumber : String) (retValue : String) :
    List String × Option String :=
  match normalizeBlockTag blocknumber with
  | Except.error e => ([], some e)
  | Except.ok tag =>
    match processCallReturn retValue with
    | CallOutcome.reverted reason => ([tag], some reason)
    | CallOutcome.revertedNoMessage => ([tag], some errRevertNoMessage)
    | CallOutcome.decoded => ([tag], none)

lemma callMethod_tag (blocknumber tag retValue : String)
    (h : normalizeBlockTag blocknumber = Except.ok tag) :
    (callMethod blocknumber retValue).1 = [tag] := by
  rcases hout : processCallReturn retValue with reason | _ | _ <;>
    simp [callMethod, h, hout]

lemma charsLeadWith_cons {a : Char} {rest bs : List Char}
    (h : charsLeadWith (a :: rest) bs = true) :
    ∃ bs2, bs = a :: bs2 ∧ charsLeadWith rest bs2 = true := by
  cases bs with
  | nil => exact absurd h (by simp [charsLeadWith])
  | cons b bs2 =>
    simp only [charsLeadWith, Bool.and_eq_true, decide_eq_true_eq] at h
    exact ⟨bs2, by rw [h.1], h.2⟩

lemma decimalToNat?_shape {t : String} {n : Nat} (h : decimalToNat? t = some n) :
    t.data ≠ [] ∧ t.data.all Char.isDigit = true := by
  unfold decimalToNat? at h
  split at h
  · exact Option.noConfusion h
  · split at h
    · rename_i h1 h2
      exact ⟨h1, h2⟩
    · exact Option.noConfusion h

lemma decimal_not_hexTag {t : String} {n : Nat} (h : decimalToNat? t = some n) :
    isHexBlockTag t = false := by
  obtain ⟨hne, hall⟩ := decimalToNat?_shape h
  by_contra hhex
  rw [Bool.not_eq_false] at hhex
  unfold isHexBlockTag at hhex
  simp only [Bool.and_eq_true] at hhex
  have h1 : charsLeadWith ['0', 'x'] t.data = true := hhex.1.1
  obtain ⟨bs2, hb2, h2⟩ := charsLeadWith_cons h1
  obtain ⟨bs3, hb3, _⟩ := charsLeadWith_cons h2
  rw [hb2, hb3] at hall
  simp only [List.all_cons, Bool.and_eq_true] at hall
  exact absurd hall.2.1 (by decide)

set_option maxRecDepth 20000

/-- `C6`: `CallMethod` block tag normalization — "" is sent to `eth_call` as
"latest"; the literal tags "latest", "pending", "earliest" pass through
unchanged; a `0x`-prefixed hex number passes through; a decimal number
string becomes lowercase `0x`-prefixed hex ("12345" becomes "0x3039", "0"
becomes "0x0"); any other tag fails with the invalid-blocknumber error and
no `eth_call` is made. -/
theorem c6_blocktag_normalization (retValue : String) :
    ((callMethod "" retValue).1 = ["latest"]) ∧
    (∀ t, (t = "latest" ∨ t = "pending" ∨ t = "earliest") →
      (callMethod t retValue).1 = [t]) ∧
    (∀ t, isHexBlockTag t = true → (callMethod t retValue).1 = [t]) ∧
    (∀ t n, decimalToNat? t = some n → (callMethod t retValue).1 = [natToHexString n]) ∧
    ((callMethod "12345" retValue).1 = ["0x3039"]) ∧
    ((callMethod "0" retValue).1 = ["0x0"]) ∧
    (∀ t, t ≠ "" → t ≠ "latest" → t ≠ "pending" → t ≠ "earliest" →
      isHexBlockTag t = false → decimalToNat? t = none →
      callMethod t retValue = ([], some errInvalidBlockNumber)) := by
  refine ⟨?_, ?_, ?_, ?_, ?_, ?_, ?_⟩
  · exact callMethod_tag "" "latest" retValue rfl
  · intro t ht
    rcases ht with h | h | h <;> subst h
    · exact callMethod_tag "latest" "latest" retValue rfl
    · exact callMethod_tag "pending" "pending" retValue rfl
    · exact callMethod_tag "earliest" "earliest" retValue rfl
  · intro t hhex
    apply callMethod_tag t t retValue
    have ht1 : ¬(t = "" ∨ t = "latest") := by
      rintro (h | h) <;> subst h <;> exact absurd hhex (by decide)
    unfold normalizeBlockTag
    rw [if_neg ht1, if_pos (Or.inl hhex)]
  · intro t n hdec
    apply callMethod_tag t (natToHexString n) retValue
    have ht1 : ¬(t = "" ∨ t = "latest") := by
      rintro (h | h)
      · subst h
        rw [show decimalToNat? "" = none from rfl] at hdec
        exact Option.noConfusion hdec
      · subst h
        rw [show decimalToNat? "latest" = none from rfl] at hdec
        exact Option.noConfusion hdec
    have ht2 : ¬(isHexBlockTag t = true ∨ t = "earliest" ∨ t = "pending") := by
      rintro (h | h | h)
      · rw [decimal_not_hexTag hdec] at h
        exact Bool.noConfusion h
      · subst h
        rw [show decimalToNat? "earliest" = none from rfl] at hdec
        exact Option.noConfusion hdec
      · subst h
        rw [show decimalToNat? "pending" = none from rfl] at hdec
        exact Option.noConfusion hdec
    unfold normalizeBlockTag
    rw [if_neg ht1, if_neg ht2, hdec]
  · exact callMethod_tag "12345" "0x3039" retValue rfl
  · exact callMethod_tag "0" "0x0" retValue rfl
  · intro t h1 h2 h3 h4 hhex hdec
    have ht1 : ¬(t = "" ∨ t = "latest") := by
      rintro (h | h)
      · exact h1 h
      · exact h2 h
    have ht2 : ¬(isHexBlockTag t = true ∨ t = "earliest" ∨ t = "pending") := by
      rintro (h | h | h)
      · rw [hhex] at h
        exact Bool.noConfusion h
      · exact h4 h
      · exact h3 h
    have hnorm : normalizeBlockTag t = Except.error errInvalidBlockNumber := by
      unfold normalizeBlockTag
      rw [if_neg ht1, if_neg ht2, hdec]
    simp [callMethod, hnorm]

/-- Witness for `c6_blocktag_normalization` at a concrete payload, checking
the "12345" and invalid-tag ("ab2345", from `TestCallMethodFail`) cases. -/
theorem c6_blocktag_normalization_witness :
    (callMethod "12345" "0x00").1 = ["0x3039"] ∧
    callMethod "ab2345" "0x00" = ([], some errInvalidBlockNumber) :=
  ⟨(c6_blocktag_normalization "0x00").2.2.2.2.1,
    (c6_blocktag_normalization "0x00").2.2.2.2.2.2 "ab2345" (by decide) (by decide)
      (by decide) (by decide) (by decide) (by decide)⟩

/-- `C4`: for every `eth_call` result payload beginning with the revert
selector `0x08c379a0`, the trailing ABI-encoded string is decoded — with the
declared length clamped to the characters actually present — and surfaced
verbatim as the error text; a malformed payload (too short, unparseable
length field, or undecodable string bytes) yields
"EVM reverted. Failed to decode error message"; and decoding totalizes (the
payload is never treated as a normal return, and nothing panics). -/
theorem c4_revert_decoding (retValue : String)
    (hsel : charsLeadWith revertSelector retValue.data = true) :
    (∀ strLen bytes,
      138 < retValue.data.length →
      hexCharsToNat? ((retValue.data.drop 74).take 64) = some strLen →
      hexPairsToBytes? ((retValue.data.drop 138).take
        (min (138 + 2 * strLen) retValue.data.length - 138)) = some bytes →
      (callMethod "" retValue).2 = some (bytesToString bytes)) ∧
    (¬ 138 < retValue.data.length →
      (callMethod "" retValue).2 = some errRevertNoMessage) ∧
    (138 < retValue.data.length →
      hexCharsToNat? ((retValue.data.drop 74).take 64) = none →
      (callMethod "" retValue).2 = some errRevertNoMessage) ∧
    (∀ strLen,
      138 < retValue.data.length →
      hexCharsToNat? ((retValue.data.drop 74).take 64) = some strLen →
      hexPairsToBytes? ((retValue.data.drop 138).take
        (min (138 + 2 * strLen) retValue.data.length - 138)) = none →
      (callMethod "" retValue).2 = some errRevertNoMessage) ∧
    processCallReturn retValue ≠ CallOutcome.decoded := by
  have hnorm : normalizeBlockTag "" = Except.ok "latest" := rfl
  refine ⟨?_, ?_, ?_, ?_, ?_⟩
  · intro strLen bytes hlen hslen hbytes
    have hout : processCallReturn retValue = CallOutcome.reverted (bytesToString bytes) := by
      unfold processCallReturn
      rw [if_pos hsel, if_pos hlen]
      simp only [hslen, hbytes]
    simp [callMethod, hnorm, hout]
  · intro hlen
    have hout : processCallReturn retValue = CallOutcome.revertedNoMessage := by
      unfold processCallReturn
      rw [if_pos hsel, if_neg hlen]
    simp [callMethod, hnorm, hout]
  · intro hlen hslen
    have hout : processCallReturn retValue = CallOutcome.revertedNoMessage := by
      unfold processCallReturn
      rw [if_pos hsel, if_pos hlen, hslen]
    simp [callMethod, hnorm, hout]
  · intro strLen hlen hslen hbytes
    have hout : processCallReturn retValue = CallOutcome.revertedNoMessage := by
      unfold processCallReturn
      rw [if_pos hsel, if_pos hlen]
      simp only [hslen, hbytes]
    simp [callMethod, hnorm, hout]
  · intro hde
    unfold processCallReturn at hde
    rw [if_pos hsel] at hde
    split at hde
    · split at hde
      · exact CallOutcome.noConfusion hde
      · split at hde <;> exact CallOutcome.noConfusion hde
    · exact CallOutcome.noConfusion hde

/-- The revert payload of `TestCallMethodRevert`: the selector, a 32-byte
offset word, length 0x11, and "Muppetry detected" padded to 32 bytes. -/
def muppetryPayload : String :=
  "0x08c379a0000000000000000000000000000000000000000000000000000000000000002000000000000000000000000000000000000000000000000000000000000000114d75707065747279206465746563746564000000000000000000000000000000"

/-- The bytes of "Muppetry detected". -/
def muppetryBytes : List Nat :=
  [77, 117, 112, 112, 101, 116, 114, 121, 32, 100, 101, 116, 101, 99, 116, 101, 100]

/-- Witness for `c4_revert_decoding` at the payload of
`TestCallMethodRevert`: the decoded error is "Muppetry detected". -/
theorem c4_revert_decoding_witness :
    charsLeadWith revertSelector muppetryPayload.data = true ∧
    (callMethod "" muppetryPayload).2 = some "Muppetry detected" := by
  constructor
  · decide
  · have h := (c4_revert_decoding muppetryPayload (by decide)).1 17 muppetryBytes
      (by decide) (by decide) (by decide)
    rw [h]
    rfl

/- ## Remote registry client (remoteregistry.go) -/

/-- Characters `url.QueryEscape` leaves unescaped. -/
def isURLUnreserved (c : Char) : Bool :=
  c.isAlphanum || c = '-' || c = '_' || c = '.' || c = '~'

/-- Uppercase hex digit (percent-encoding). -/
def hexUpperDigit (n : Nat) : Char :=
  if n < 10 then Char.ofNat ('0'.toNat + n) else Char.ofNat ('A'.toNat + (n - 10))

/-- `url.QueryEscape` of one character: unreserved characters pass, a space
becomes `+`, anything else is percent-encoded (single-byte characters). -/
def queryEscapeChar (c : Char) : List Char :=
  if isURLUnreserved c then [c]
  else if c = ' ' then ['+']
  else ['%', hexUpperDigit (c.toNat / 16 % 16), hexUpperDigit (c.toNat % 16)]

/-- Go `url.QueryEscape`, as used for the registry lookup string. -/
def queryEscape (s : String) : String :=
  String.mk (s.data.map queryEscapeChar).flatten

/-- Strip a leading `0x` (Go `strings.TrimPrefix(s, "0x")`). -/
def trimHexMark (s : String) : String :=
  if charsLeadWith "0x".data s.data then String.mk (s.data.drop 2) else s

/-- Lowercase all characters. -/
def toLowerStr (s : String) : String := String.mk (s.data.map Char.toLower)

/-- The message `loadFactoryFromURL` constructs — the fields of
`deployContractWithAddress` that come from the registry response: `id`,
the ABI (kept as its source string), `devdoc`, the hex-decoded bytecode, and
the lower-cased `0x`-stripped address. -/
structure DeployContractWA where
  id : String
  abi : String
  devdoc : String
  bytecode : List Nat
  address : String
deriving DecidableEq

/-- Outcome of `HTTPRequester.DoRequest` for a registry GET, together with
the `GetResponseString` outcomes for each configured property name on the
returned JSON (the requester is an external collaborator): a request error,
an HTTP 404 (nil result, nil error), or a JSON body. -/
inductive RegistryHTTP
  | reqError (e : String)
  | notFound
  | jsonBody (idRes : Except String String) (abiRes : Except String String)
      (devdocRes : Except String String) (bytecodeRes : Except String String)
      (addrRes : Except String String)

/-- Error text `RemoteRegistryLookupGenericProcessingFailed`. -/
def remoteRegistryGenericProcessingFailed : String :=
  "Error processing contract registry response"

/-- The field-processing chain of `loadFactoryFromURL` (lines 141-188): `id`
and `abi` required, the ABI string must parse (`parseABI` standing for
`json.Unmarshal` into `ABIMarshaling`), `devdoc` and `bytecode` required,
the bytecode hex-decoded after stripping `0x`, and the optional address
lower-cased with errors ignored. -/
def processRegistryResponse (parseABI : String → Bool)
    (idRes abiRes devdocRes bytecodeRes addrRes : Except String String) :
    Except String DeployContractWA :=
  match idRes with
  | Except.error e => Except.error e
  | Except.ok idString =>
    match abiRes with
    | Except.error e => Except.error e
    | Except.ok abiString =>
      if parseABI abiString = false then
        Except.error remoteRegistryGenericProcessingFailed
      else
        match devdocRes with
        | Except.error e => Except.error e
        | Except.ok devdoc =>
          match bytecodeRes with
          | Except.error e => Except.error e
          | Except.ok bytecodeStr =>
            match hexPairsToBytes? (trimHexMark bytecodeStr).data with
            | none => Except.error remoteRegistryGenericProcessingFailed
            | some bytecode =>
              Except.ok
                { id := idString, abi := abiString, devdoc := devdoc,
                  bytecode := bytecode,
                  address := toLowerStr (trimHexMark (match addrRes with
                    | Except.ok a => a
                    | Except.error _ => "")) }

/-- The registry's optional `CacheDB`: `none` when unconfigured; otherwise
an association list from cache key to stored value, where a stored value of
`none` stands for bytes that no longer deserialize. -/
structure RemoteRegistryDB where
  db : Option (List (String × Option DeployContractWA))

/-- Key-value `Get` on the cache contents. -/
def kvGet (kv : List (String × Option DeployContractWA)) (k : String) :
    Option (Option DeployContractWA) :=
  match kv.find? (fun p => p.1 == k) with
  | some p => some p.2
  | none => none

/-- `loadFactoryFromCacheDB`: nil unless a db is configured, the key is
present, and the bytes deserialize. -/
def loadFactoryFromCacheDB (st : RemoteRegistryDB) (cacheKey : String) :
    Option DeployContractWA :=
  match st.db with
  | none => none
  | some kv =>
    match kvGet kv cacheKey with
    | some (some msg) => some msg
    | some none => none
    | none => none

/-- `storeFactoryToCacheDB`: no-op unless a db is configured; otherwise
serialize the message and `Put` it under the key. -/
def storeFactoryToCacheDB (st : RemoteRegistryDB) (cacheKey : String)
    (msg : DeployContractWA) : RemoteRegistryDB :=
  match st.db with
  | none => st
  | some kv => { db := some ((cacheKey, some msg) :: kv) }

/-- `loadFactoryFromURL`: unless `refresh` is set, try the cache under
`ns ++ "/" ++ url.QueryEscape(lookupStr)` and return a hit without any HTTP
request; otherwise GET `<base><escaped-id>`, process the response, and on
success store the result to the cache.  Returns the new cache state, whether
an HTTP request was issued, and the result (`ok none` mirrors the nil, nil
of a 404). -/
def loadFactoryFromURL (st : RemoteRegistryDB) (parseABI : String → Bool)
    (ns lookupStr : String) (refresh : Bool) (http : RegistryHTTP) :
    RemoteRegistryDB × Bool × Except String (Option DeployContractWA) :=
  let cacheKey := ns ++ "/" ++ queryEscape lookupStr
  match (if refresh then none else loadFactoryFromCacheDB st cacheKey) with
  | some msg => (st, false, Except.ok (some msg))
  | none =>
    match http with
    | RegistryHTTP.reqError e => (st, true, Except.error e)
    | RegistryHTTP.notFound => (st, true, Except.ok none)
    | RegistryHTTP.jsonBody idRes abiRes devdocRes bytecodeRes addrRes =>
      match processRegistryResponse parseABI idRes abiRes devdocRes bytecodeRes addrRes with
      | Except.error e => (st, true, Except.error e)
      | Except.ok msg => (storeFactoryToCacheDB st cacheKey msg, true, Except.ok (some msg))

/-- The two optional base URLs of the remote registry configuration. -/
structure RemoteRegistryConf where
  gatewayURLBase : String
  instanceURLBase : String
deriving DecidableEq

/-- `loadFactoryForGateway`: nil, nil when no gateway URL is configured;
otherwise a lookup in the "gateways" namespace. -/
def loadFactoryForGateway (conf : RemoteRegistryConf) (st : RemoteRegistryDB)
    (parseABI : String → Bool) (lookupStr : String) (refresh : Bool)
    (http : RegistryHTTP) :
    RemoteRegistryDB × Bool × Except String (Option DeployContractWA) :=
  if conf.gatewayURLBase = "" then (st, false, Except.ok none)
  else loadFactoryFromURL st parseABI "gateways" lookupStr refresh http

/-- `loadFactoryForInstance`: nil, nil when no instance URL is configured;
otherwise a lookup in the "instances" namespace. -/
def loadFactoryForInstance (conf : RemoteRegistryConf) (st : RemoteRegistryDB)
    (parseABI : String → Bool) (lookupStr : String) (refresh : Bool)
    (http : RegistryHTTP) :
    RemoteRegistryDB × Bool × Except String (Option DeployContractWA) :=
  if conf.instanceURLBase = "" then (st, false, Except.ok none)
  else loadFactoryFromURL st parseABI "instances" lookupStr refresh http

/-- Identity of the registry client errors that carry no quoted text. -/
inductive RegistryError
  | notConfigured
  | registrationFailed (e : String)
deriving DecidableEq

/-- `registerInstance`: `RemoteRegistryNotConfigured` when no instance URL
is configured (no request made); otherwise POST, wrapping any failure as
`RemoteRegistryRegistrationFailed`.  The second component records whether
the POST was issued. -/
def registerInstance (conf : RemoteRegistryConf) (postErr : Option String) :
    Except RegistryError Unit × Bool :=
  if conf.instanceURLBase = "" then (Except.error RegistryError.notConfigured, false)
  else
    match postErr with
    | some e => (Except.error (RegistryError.registrationFailed e), true)
    | none => (Except.ok (), true)

/-- How `rest2eth.resolveABI` disposes of a `GetABI` result (part_000
lines 243-251): an error replies 500; a nil message replies 404 with
`RESTGatewayInstanceNotFound`; otherwise the deploy message is used. -/
inductive ResolveABIReply
  | errorReply (status : Int)
  | instanceNotFoundReply (status : Int)
  | okReply (msg : DeployContractWA)
deriving DecidableEq

/-- The disposition function itself. -/
def resolveABIDisposition (getABIResult : Except String (Option DeployContractWA)) :
    ResolveABIReply :=
  match getABIResult with
  | Except.error _ => ResolveABIReply.errorReply 500
  | Except.ok none => ResolveABIReply.instanceNotFoundReply 404
  | Except.ok (some m) => ResolveABIReply.okReply m

/-- `C9`: with a `CacheDB` configured, a successful registry GET stores the
processed result under `"<ns>/<escaped-id>"` with ns "gateways" for gateway
lookups and "instances" for instance lookups; a `refresh=false` lookup that
finds a cached entry returns it without issuing an HTTP request; and a
`refresh=true` lookup skips the cache read, performs the HTTP request, and
still writes the fresh result to the cache on success. -/
theorem c9_registry_cache (kv : List (String × Option DeployContractWA))
    (parseABI : String → Bool) (lookupStr : String) (http : RegistryHTTP)
    (conf : RemoteRegistryConf)
    (hgw : conf.gatewayURLBase ≠ "") (hinst : conf.instanceURLBase ≠ "") :
    (∀ idRes abiRes devdocRes bytecodeRes addrRes msg refresh,
      http = RegistryHTTP.jsonBody idRes abiRes devdocRes bytecodeRes addrRes →
      processRegistryResponse parseABI idRes abiRes devdocRes bytecodeRes addrRes =
        Except.ok msg →
      (refresh = true ∨
        loadFactoryFromCacheDB (RemoteRegistryDB.mk (some kv))
          ("gateways/" ++ queryEscape lookupStr) = none) →
      loadFactoryForGateway conf (RemoteRegistryDB.mk (some kv)) parseABI lookupStr
          refresh http =
        (RemoteRegistryDB.mk (some
            (("gateways/" ++ queryEscape lookupStr, some msg) :: kv)),
          true, Except.ok (some msg))) ∧
    (∀ idRes abiRes devdocRes bytecodeRes addrRes msg refresh,
      http = RegistryHTTP.jsonBody idRes abiRes devdocRes bytecodeRes addrRes →
      processRegistryResponse parseABI idRes abiRes devdocRes bytecodeRes addrRes =
        Except.ok msg →
      (refresh = true ∨
        loadFactoryFromCacheDB (RemoteRegistryDB.mk (some kv))
          ("instances/" ++ queryEscape lookupStr) = none) →
      loadFactoryForInstance conf (RemoteRegistryDB.mk (some kv)) parseABI lookupStr
          refresh http =
        (RemoteRegistryDB.mk (some
            (("instances/" ++ queryEscape lookupStr, some msg) :: kv)),
          true, Except.ok (some msg))) ∧
    (∀ msg,
      loadFactoryFromCacheDB (RemoteRegistryDB.mk (some kv))
          ("gateways/" ++ queryEscape lookupStr) = some msg →
      loadFactoryForGateway conf (RemoteRegistryDB.mk (some kv)) parseABI lookupStr
          false http =
        (RemoteRegistryDB.mk (some kv), false, Except.ok (some msg))) ∧
    (∀ msg,
      loadFactoryFromCacheDB (RemoteRegistryDB.mk (some kv))
          ("instances/" ++ queryEscape lookupStr) = some msg →
      loadFactoryForInstance conf (RemoteRegistryDB.mk (some kv)) parseABI lookupStr
          false http =
        (RemoteRegistryDB.mk (some kv), false, Except.ok (some msg))) ∧
    ((loadFactoryForGateway conf (RemoteRegistryDB.mk (some kv)) parseABI lookupStr
        true http).2.1 = true) := by
  refine ⟨?_, ?_, ?_, ?_, ?_⟩
  · intro idRes abiRes devdocRes bytecodeRes addrRes msg refresh hhttp hproc hbypass
    subst hhttp
    have hcache : (if refresh then none else
        loadFactoryFromCacheDB (RemoteRegistryDB.mk (some kv))
          ("gateways/" ++ queryEscape lookupStr)) = none := by
      rcases hbypass with h | h
      · rw [h]
        rfl
      · rcases refresh <;> simp [h]
    simp [loadFactoryForGateway, hgw, loadFactoryFromURL, hcache, hproc,
      storeFactoryToCacheDB]
  · intro idRes abiRes devdocRes bytecodeRes addrRes msg refresh hhttp hproc hbypass
    subst hhttp
    have hcache : (if refresh then none else
        loadFactoryFromCacheDB (RemoteRegistryDB.mk (some kv))
          ("instances/" ++ queryEscape lookupStr)) = none := by
      rcases hbypass with h | h
      · rw [h]
        rfl
      · rcases refresh <;> simp [h]
    simp [loadFactoryForInstance, hinst, loadFactoryFromURL, hcache, hproc,
      storeFactoryToCacheDB]
  · intro msg hhit
    simp [loadFactoryForGateway, hgw, loadFactoryFromURL, hhit]
  · intro msg hhit
    simp [loadFactoryForInstance, hinst, loadFactoryFromURL, hhit]
  · rcases http with e | _ | ⟨idRes, abiRes, devdocRes, bytecodeRes, addrRes⟩
    · simp [loadFactoryForGateway, hgw, loadFactoryFromURL]
    · simp [loadFactoryForGateway, hgw, loadFactoryFromURL]
    · rcases hproc : processRegistryResponse parseABI idRes abiRes devdocRes
        bytecodeRes addrRes with e | msg <;>
        simp [loadFactoryForGateway, hgw, loadFactoryFromURL, hproc,
          storeFactoryToCacheDB]

/-- Witness for `c9_registry_cache` at a concrete configuration: a
configured cache containing one entry is returned on a `refresh=false`
gateway lookup without an HTTP request. -/
theorem c9_registry_cache_witness :
    (RemoteRegistryConf.mk "http://gw/" "http://inst/").gatewayURLBase ≠ "" ∧
    loadFactoryForGateway (RemoteRegistryConf.mk "http://gw/" "http://inst/")
        (RemoteRegistryDB.mk (some
          [("gateways/" ++ queryEscape "mygw",
            some (DeployContractWA.mk "id1" "[]" "" [] ""))]))
        (fun _ => true) "mygw" false RegistryHTTP.notFound =
      (RemoteRegistryDB.mk (some
          [("gateways/" ++ queryEscape "mygw",
            some (DeployContractWA.mk "id1" "[]" "" [] ""))]),
        false, Except.ok (some (DeployContractWA.mk "id1" "[]" "" [] ""))) := by
  constructor
  · decide
  · exact (c9_registry_cache
      [("gateways/" ++ queryEscape "mygw",
        some (DeployContractWA.mk "id1" "[]" "" [] ""))]
      (fun _ => true) "mygw" RegistryHTTP.notFound
      (RemoteRegistryConf.mk "http://gw/" "http://inst/")
      (by decide) (by decide)).2.2.1
      (DeployContractWA.mk "id1" "[]" "" [] "") (by rfl)

/-- `C10`: when the corresponding URL base is unconfigured,
`loadFactoryForGateway` and `loadFactoryForInstance` return a nil result
with a nil error and issue no HTTP request — the same shape as an HTTP 404,
which the router's `resolveABI` surfaces as a 404 instance-not-found reply —
whereas `registerInstance` returns the not-configured error. -/
theorem c10_unconfigured_nil_nil (st : RemoteRegistryDB) (parseABI : String → Bool)
    (lookupStr : String) (refresh : Bool) (http : RegistryHTTP)
    (postErr : Option String) :
    loadFactoryForGateway (RemoteRegistryConf.mk "" "") st parseABI lookupStr
        refresh http = (st, false, Except.ok none) ∧
    loadFactoryForInstance (RemoteRegistryConf.mk "" "") st parseABI lookupStr
        refresh http = (st, false, Except.ok none) ∧
    resolveABIDisposition (Except.ok none) = ResolveABIReply.instanceNotFoundReply 404 ∧
    registerInstance (RemoteRegistryConf.mk "" "") postErr =
      (Except.error RegistryError.notConfigured, false) :=
  ⟨rfl, rfl, rfl, rfl⟩

/- ## Address validation in the REST router (rest2eth.resolveParams) -/

/-- The route address regex `^(0x)?[0-9a-z]{40}$` (`addrCheck` in
part_000). -/
def addrCheck (s : String) : Bool :=
  let t := if charsLeadWith "0x".data s.data then s.data.drop 2 else s.data
  (t.length == 40) && t.all (fun c => c.isDigit || ('a' ≤ c && c ≤ 'z'))

/-- Split on dashes (for the HD-wallet reference shape). -/
def splitOnDash : List Char → List (List Char)
  | [] => [[]]
  | c :: rest =>
    if c = '-' then [] :: splitOnDash rest
    else
      match splitOnDash rest with
      | h :: t => (c :: h) :: t
      | [] => [[c]]

/-- `tx.IsHDWalletRequest`: the regex `^hd-[^-]+-[^-]+-\d+$`. -/
def isHDWalletRequest (s : String) : Bool :=
  match splitOnDash s.data with
  | [p0, p1, p2, p3] =>
    decide (p0 = ['h', 'd']) && decide (p1 ≠ []) && decide (p2 ≠ []) &&
      decide (p3 ≠ []) && p3.all Char.isDigit
  | _ => false

/-- How `resolveParams` disposes of the `from` control parameter. -/
inductive FromResolution
  | noFrom
  | hexFrom (addr : String)
  | hdFrom (ref : String)
  | rejected (status : Int)
deriving DecidableEq

/-- The `from` validation of `resolveParams` (part_000 lines 389-403):
strip `0x` and lower-case; empty means no from; an `addrCheck` match is
re-prefixed with `0x`; an HD-wallet reference passes through; anything else
replies `RESTGatewayInvalidFromAddress` with HTTP status 404. -/
def resolveFromParam (fromParam : String) : FromResolution :=
  let fromNoHexMark := toLowerStr (trimHexMark fromParam)
  if fromNoHexMark = "" then FromResolution.noFrom
  else if addrCheck fromNoHexMark then FromResolution.hexFrom ("0x" ++ fromNoHexMark)
  else if isHDWalletRequest fromNoHexMark then FromResolution.hdFrom fromNoHexMark
  else FromResolution.rejected 404

/-- The `:address` path handling of a local `/contracts/` route
(`resolveABI`, part_000 lines 220-240, plus the final check at lines
378-387): strip `0x` and lower-case; a value failing `addrCheck` is looked
up as a registered name via `ResolveContractAddress`, an unresolvable one
replying 404; a resolved or matching address is normalized to `0x`-prefixed
form. -/
def resolveToAddress (addrParam : String) (resolveName : String → Option String) :
    Except Int String :=
  let addr := toLowerStr (trimHexMark addrParam)
  if addrCheck addr then Except.ok ("0x" ++ addr)
  else
    match resolveName addrParam with
    | some resolved => Except.ok ("0x" ++ resolved)
    | none => Except.error 404

/-- `C8` (amended): a syntactically invalid `from` parameter (neither
40-hex per `addrCheck` nor an HD-wallet reference) is rejected with HTTP
status 404 (`RESTGatewayInvalidFromAddress`), and an invalid `:address`
path segment that cannot be resolved as a registered name is rejected with
HTTP status 404 — not with the 400 used for other client-input errors. -/
theorem c8_invalid_address_404 (fromParam : String)
    (hne : toLowerStr (trimHexMark fromParam) ≠ "")
    (haddr : addrCheck (toLowerStr (trimHexMark fromParam)) = false)
    (hhd : isHDWalletRequest (toLowerStr (trimHexMark fromParam)) = false) :
    resolveFromParam fromParam = FromResolution.rejected 404 ∧
    (∀ addrParam resolveName,
      addrCheck (toLowerStr (trimHexMark addrParam)) = false →
      resolveName addrParam = none →
      resolveToAddress addrParam resolveName = Except.error 404) := by
  constructor
  · unfold resolveFromParam
    rw [if_neg hne, if_neg (by rw [haddr]; exact Bool.noConfusion),
      if_neg (by rw [hhd]; exact Bool.noConfusion)]
  · intro addrParam resolveName haddr2 hres
    unfold resolveToAddress
    rw [if_neg (by rw [haddr2]; exact Bool.noConfusion), hres]

/-- Witness for `c8_invalid_address_404` at the concrete invalid address
"notanaddress". -/
theorem c8_invalid_address_404_witness :
    toLowerStr (trimHexMark "notanaddress") ≠ "" ∧
    addrCheck (toLowerStr (trimHexMark "notanaddress")) = false ∧
    resolveFromParam "notanaddress" = FromResolution.rejected 404 :=
  ⟨by decide, by decide,
    (c8_invalid_address_404 "notanaddress" (by decide) (by decide) (by decide)).1⟩

/-- `C8` counterexample: the request parameter "notanaddress" is neither
40-hex nor an HD-wallet reference; the gateway rejects it with status 404,
not the claimed 400 — both as a `from` parameter and as an unresolvable
`:address` segment. -/
theorem c8_counterexample :
    resolveFromParam "notanaddress" = FromResolution.rejected 404 ∧
    resolveFromParam "notanaddress" ≠ FromResolution.rejected 400 ∧
    resolveToAddress "notanaddress" (fun _ => none) = Except.error 404 ∧
    resolveToAddress "notanaddress" (fun _ => none) ≠ Except.error 400 := by
  refine ⟨by decide, by decide, rfl, ?_⟩
  intro h
  exact absurd (Except.error.inj h) (by decide)
